import Mathlib

/-!
# The `users` CRUD service (`api/main.go`, package `handler`)

A shallow embedding of the four JSON handlers, the HTML index handler, the
route table and `getUsersFromDB`, followed by the theorems about them.

* Go values that reach `c.JSON` are kept as Go values (`Any`, `H`, `Slice`)
  and turned into a JSON tree by `marshal`, following `encoding/json`:
  a map becomes an object with its keys sorted, a nil slice becomes `null`.
* A request body is the JSON value the decoder reads, or the decoder's error;
  `ShouldBindJSON` follows `encoding/json` on the three-field struct.
* The database handle `db` is a record of the three `database/sql` calls the
  program makes, over an arbitrary state `σ`. A result set is its rows and
  `rows.Err()`, which the source does not read. The handlers are written against
  that record, and the theorems about responses and errors hold for every such
  record. `pg` is the `users` table with the meaning of the four SQL statements
  of the program; the theorems about rows are about it.
-/

namespace Handler

/-! ## Values, JSON and responses -/

/-- The text of a Go `error`: what `err.Error()` yields. -/
abbrev Error := String

/-- A JSON document, as a tree. Numbers are integers, the only numbers the
program writes; an object keeps its members in document order. -/
inductive JSON where
  | null
  | bool (b : Bool)
  | num (n : Int)
  | str (s : String)
  | arr (elems : List JSON)
  | obj (members : List (String × JSON))

/-- The name `encoding/json` gives the kind of a JSON value in its messages. -/
def JSON.kind : JSON → String
  | .null => "null"
  | .bool _ => "bool"
  | .num _ => "number"
  | .str _ => "string"
  | .arr _ => "array"
  | .obj _ => "object"

/-- A Go slice: `none` is the nil slice, `some xs` a non-nil slice. -/
abbrev Slice (α : Type) := Option (List α)

/-- Go's `append(s, x)`: appending to the nil slice gives a one-element slice. -/
def Slice.append {α : Type} (s : Slice α) (x : α) : Slice α :=
  match s with
  | none => some [x]
  | some xs => some (xs ++ [x])

/-- Go's `len(s)`: the nil slice has length 0. -/
def Slice.len {α : Type} : Slice α → Nat
  | none => 0
  | some xs => xs.length

/-- The elements of a slice in order; the nil slice has none. -/
def Slice.elems {α : Type} : Slice α → List α
  | none => []
  | some xs => xs

/-- The `interface{}` values this program stores in a `gin.H`. -/
inductive Any where
  | int (n : Int)
  | string (s : String)

/-- A `gin.H` (`map[string]interface{}`) literal, entries as written in the source. -/
abbrev H := List (String × Any)

/-- The value a `gin.H` holds under `key`. -/
def H.get (h : H) (key : String) : Option Any :=
  (h.find? (fun kv => kv.1 = key)).map (fun kv => kv.2)

/-- JSON encoding of an `interface{}` value. -/
def Any.marshal : Any → JSON
  | .int n => .num n
  | .string s => .str s

/-- Insert a member into a list of members kept sorted by key. Keys are
compared as Go compares strings, character by character. -/
def insertMember (kv : String × JSON) : List (String × JSON) → List (String × JSON)
  | [] => [kv]
  | m :: ms => if kv.1.toList < m.1.toList then kv :: m :: ms else m :: insertMember kv ms

/-- JSON encoding of a map: an object whose keys are sorted (`encoding/json`). -/
def H.marshal (h : H) : JSON :=
  .obj (h.foldr (fun kv acc => insertMember (kv.1, kv.2.marshal) acc) [])

/-- JSON encoding of a `[]map[string]interface{}`: `null` for the nil slice,
an array otherwise (`encoding/json`). -/
def marshalUsers : Slice H → JSON
  | none => .null
  | some hs => .arr (hs.map H.marshal)

/-- The data handed to the `index.html` template. -/
inductive IndexData where
  | error (err : Error)
  | users (users : Slice H)

/-- What a handler writes as the response body. -/
inductive Body where
  | json (v : JSON)
  | html (name : String) (data : IndexData)
  | text (s : String)

/-- An HTTP response: status code and body. -/
structure Response where
  status : Nat
  body : Body

/-- Status code `http.StatusOK`. -/
def StatusOK : Nat := 200
/-- Status code `http.StatusBadRequest`. -/
def StatusBadRequest : Nat := 400
/-- Status code `http.StatusNotFound`. -/
def StatusNotFound : Nat := 404
/-- Status code `http.StatusInternalServerError`. -/
def StatusInternalServerError : Nat := 500

/-! ## Request bodies and `ShouldBindJSON` -/

/-- A request body as the JSON decoder sees it: bytes it rejects (a syntax
error, an empty body), with the decoder's message, or a JSON value. -/
inductive ReqBody where
  | malformed (err : Error)
  | value (v : JSON)

/-- The anonymous struct `createUser` and `updateUser` bind the body to. -/
structure UserFields where
  Name : String
  Department : String
  Email : String

/-- The three fields of the struct. -/
inductive Field where
  | Name
  | Department
  | Email

/-- The `json:"..."` tag of a field. -/
def Field.tag : Field → String
  | .Name => "name"
  | .Department => "department"
  | .Email => "email"

/-- Case folding of a key: `encoding/json` matches keys to tags ignoring case. -/
def foldKey (k : String) : List Char := k.toList.map Char.toLower

/-- The field a JSON key is decoded into; a key that matches no tag is ignored. -/
def fieldOf (key : String) : Option Field :=
  if foldKey key = foldKey Field.Name.tag then some .Name
  else if foldKey key = foldKey Field.Department.tag then some .Department
  else if foldKey key = foldKey Field.Email.tag then some .Email
  else none

/-- Store a string in a field. -/
def UserFields.set (u : UserFields) : Field → String → UserFields
  | .Name, s => { u with Name := s }
  | .Department, s => { u with Department := s }
  | .Email, s => { u with Email := s }

/-- Read a field. -/
def UserFields.get (u : UserFields) : Field → String
  | .Name => u.Name
  | .Department => u.Department
  | .Email => u.Email

/-- Decode one member of the body object: a string sets its field, `null`
leaves it as it is, any other value is a type error (the first one is kept and
decoding goes on). -/
def decodeMember (acc : UserFields × Option Error) (kv : String × JSON) :
    UserFields × Option Error :=
  match fieldOf kv.1 with
  | none => acc
  | some f =>
    match kv.2 with
    | .str s => (acc.1.set f s, acc.2)
    | .null => acc
    | v =>
      match acc.2 with
      | some e => (acc.1, some e)
      | none => (acc.1, some ("json: cannot unmarshal " ++ v.kind ++
          " into Go struct field ." ++ f.tag ++ " of type string"))

/-- Decoding of a JSON value into the struct, whose fields start as `""`. The
error for a value that is no object names the struct type as Go prints it; how
a member's type error names the field depends on the Go version. -/
def unmarshal : JSON → Except Error UserFields
  | .null => .ok ⟨"", "", ""⟩
  | .obj ms =>
    match ms.foldl decodeMember (⟨"", "", ""⟩, none) with
    | (u, none) => .ok u
    | (_, some e) => .error e
  | v => .error ("json: cannot unmarshal " ++ v.kind ++ " into Go value of type " ++
      "struct \x7b Name string \"json:\\\"name\\\"\"; " ++
      "Department string \"json:\\\"department\\\"\"; " ++
      "Email string \"json:\\\"email\\\"\" \x7d")

/-- Binding of a request body, `c.ShouldBindJSON(&user)`: the struct has no
`binding` tag, so binding is decoding. -/
def ShouldBindJSON : ReqBody → Except Error UserFields
  | .malformed err => .error err
  | .value v => unmarshal v

/-! ## The database handle -/

/-- The values `rows.Scan(&id, &name, &department, &email)` stores. -/
structure UserRow where
  id : Int
  name : String
  department : String
  email : String

/-- The result set `db.Query` hands back, as the iteration sees it: the rows
`rows.Next()` walks through, each as what
`rows.Scan(&id, &name, &department, &email)` makes of it, and `rows.Err()`, the
error that ended the iteration when the statement failed after it had started
to deliver rows (`none`: the rows ran out). -/
structure Rows where
  scans : List (Except Error UserRow)
  Err : Option Error

/-- The calls the program makes on `db`, over a database state `σ`.
`Query` is `db.Query(q)`: the error the call returns, or the result set;
`QueryRowScan` is `db.QueryRow(q, args...).Scan(&userID)`; `Exec` is
`db.Exec(q, args...)`. -/
structure DB (σ : Type) where
  Query : String → σ → Except Error Rows × σ
  QueryRowScan : String → List String → σ → Except Error Int × σ
  Exec : String → List String → σ → Option Error × σ

/-! ## The handlers -/

/-- The loop `for rows.Next() { ... }` of `getUsersFromDB`: a row that fails to
scan ends it with `nil, err`, any other row is appended to `users`. -/
def scanRows : List (Except Error UserRow) → Slice H → Slice H × Option Error
  | [], users => (users, none)
  | .error err :: _, _ => (none, some err)
  | .ok r :: rest, users =>
    scanRows rest (users.append
      [("id", .int r.id), ("name", .string r.name),
       ("department", .string r.department), ("email", .string r.email)])

/-- Go's `getUsersFromDB`: the pair `(users, err)` it returns, and the database
after. The source returns `users, nil` when the loop ends and never reads
`rows.Err()`. -/
def getUsersFromDB {σ : Type} (db : DB σ) (s : σ) : (Slice H × Option Error) × σ :=
  match db.Query "SELECT id, name, department, email FROM users" s with
  | (.error err, s1) => ((none, some err), s1)
  | (.ok rows, s1) => (scanRows rows.scans none, s1)

/-- Gin's `c.JSON(code, obj)`, `obj` already encoded. -/
def respondJSON (code : Nat) (v : JSON) : Response := ⟨code, .json v⟩

/-- The handler of `GET /`. -/
def index {σ : Type} (db : DB σ) (s : σ) : Response × σ :=
  match getUsersFromDB db s with
  | ((_, some err), s1) => (⟨StatusInternalServerError, .html "index.html" (.error err)⟩, s1)
  | ((users, none), s1) => (⟨StatusOK, .html "index.html" (.users users)⟩, s1)

/-- The handler of `GET /users`. -/
def getUsers {σ : Type} (db : DB σ) (s : σ) : Response × σ :=
  match getUsersFromDB db s with
  | ((_, some err), s1) =>
    (respondJSON StatusInternalServerError (H.marshal [("error", .string err)]), s1)
  | ((users, none), s1) => (respondJSON StatusOK (marshalUsers users), s1)

/-- Go's `createUser`. -/
def createUser {σ : Type} (db : DB σ) (body : ReqBody) (s : σ) : Response × σ :=
  match ShouldBindJSON body with
  | .error err => (respondJSON StatusBadRequest (H.marshal [("error", .string err)]), s)
  | .ok user =>
    match db.QueryRowScan
        "INSERT INTO users (name, department, email) VALUES ($1, $2, $3) RETURNING id"
        [user.Name, user.Department, user.Email] s with
    | (.error err, s1) =>
      (respondJSON StatusInternalServerError (H.marshal [("error", .string err)]), s1)
    | (.ok userID, s1) => (respondJSON StatusOK (H.marshal [("id", .int userID)]), s1)

/-- Go's `updateUser`; `id` is `c.Param("id")`. -/
def updateUser {σ : Type} (db : DB σ) (id : String) (body : ReqBody) (s : σ) : Response × σ :=
  match ShouldBindJSON body with
  | .error err => (respondJSON StatusBadRequest (H.marshal [("error", .string err)]), s)
  | .ok user =>
    match db.Exec "UPDATE users SET name = $1, department = $2, email = $3 WHERE id = $4"
        [user.Name, user.Department, user.Email, id] s with
    | (some err, s1) =>
      (respondJSON StatusInternalServerError (H.marshal [("error", .string err)]), s1)
    | (none, s1) => (respondJSON StatusOK (H.marshal [("message", .string "User updated")]), s1)

/-- Go's `deleteUser`; `id` is `c.Param("id")`. -/
def deleteUser {σ : Type} (db : DB σ) (id : String) (s : σ) : Response × σ :=
  match db.Exec "DELETE FROM users WHERE id = $1" [id] s with
  | (some err, s1) =>
    (respondJSON StatusInternalServerError (H.marshal [("error", .string err)]), s1)
  | (none, s1) => (respondJSON StatusOK (H.marshal [("message", .string "User deleted")]), s1)

/-- A request: method, path as its segments (`/` is `[]`, `/users/1` is
`["users", "1"]`), body. No segment is empty: a path with a trailing or a
doubled slash is not a request of this type (gin answers some of those with a
redirect before any route is tried). -/
structure Request where
  method : String
  path : List String
  body : ReqBody
  segments : ∀ seg ∈ path, seg ≠ ""

/-- The route table of `init`: `:id` is one segment of the path; a request that
matches no route gets gin's 404. -/
def ServeHTTP {σ : Type} (db : DB σ) (r : Request) (s : σ) : Response × σ :=
  match r.method, r.path with
  | "GET", [] => index db s
  | "GET", ["users"] => getUsers db s
  | "POST", ["users"] => createUser db r.body s
  | "PUT", ["users", id] => updateUser db id r.body s
  | "DELETE", ["users", id] => deleteUser db id s
  | _, _ => (⟨StatusNotFound, .text "404 page not found"⟩, s)

/-! ## The `users` table -/

/-- Modelled from the spec: the `users` table, whose schema is not in the
sources. It has the columns id (integer, generated), name, department and email.
The state is the rows in the order the `SELECT` returns them, the last id the
generator of the `id` column handed out (ids are 1, 2, 3, ...), and the
statements received so far, each with its arguments. -/
structure Table where
  users : List UserRow
  lastId : Nat
  log : List (String × List String)

/-- The statement is written to the log of statements received. -/
def Table.record (t : Table) (q : String) (args : List String) : Table :=
  { t with log := t.log ++ [(q, args)] }

/-- Modelled from the spec: the database answering the four statements the
source issues, by the meaning of their SQL text. `conv` is the database's
reading of a text argument as a value of the integer column `id` (`none`: the
text is rejected, the statement fails); `fault`, when set, is an error every
statement ends with, leaving the rows as they are (a lost connection, a violated
constraint). The `INSERT` gives the new row the next id, one more than the last;
the `UPDATE` and the `DELETE` act on every row whose id is the one given. -/
def pg (conv : String → Option Int) (fault : Option Error) : DB Table where
  Query q s :=
    match fault with
    | some err => (.error err, s.record q [])
    | none =>
      match q with
      | "SELECT id, name, department, email FROM users" =>
        (.ok ⟨s.users.map .ok, none⟩, s.record q [])
      | _ => (.error "pq: statement not supported", s.record q [])
  QueryRowScan q args s :=
    match fault with
    | some err => (.error err, s.record q args)
    | none =>
      match q, args with
      | "INSERT INTO users (name, department, email) VALUES ($1, $2, $3) RETURNING id",
        [name, department, email] =>
        (.ok (s.lastId + 1),
          { users := s.users ++ [⟨s.lastId + 1, name, department, email⟩],
            lastId := s.lastId + 1,
            log := s.log ++ [(q, args)] })
      | _, _ => (.error "pq: statement not supported", s.record q args)
  Exec q args s :=
    match fault with
    | some err => (some err, s.record q args)
    | none =>
      match q, args with
      | "UPDATE users SET name = $1, department = $2, email = $3 WHERE id = $4",
        [name, department, email, id] =>
        match conv id with
        | none => (some ("pq: invalid input syntax for type integer: " ++ id), s.record q args)
        | some n =>
          (none,
            { users := s.users.map (fun r =>
                if r.id = n then { r with name := name, department := department, email := email }
                else r),
              lastId := s.lastId,
              log := s.log ++ [(q, args)] })
      | "DELETE FROM users WHERE id = $1", [id] =>
        match conv id with
        | none => (some ("pq: invalid input syntax for type integer: " ++ id), s.record q args)
        | some n =>
          (none,
            { users := s.users.filter (fun r => decide (r.id ≠ n)),
              lastId := s.lastId,
              log := s.log ++ [(q, args)] })
      | _, _ => (some "pq: statement not supported", s.record q args)

/-- Decimal digits read as a number, most significant first. -/
def readDigits : List Char → Nat → Option Nat
  | [], acc => some acc
  | c :: cs, acc => if c.isDigit then readDigits cs (acc * 10 + (c.toNat - 48)) else none

/-- An integer in decimal with an optional minus sign; anything else is rejected. -/
def readInt (text : String) : Option Int :=
  match text.toList with
  | [] => none
  | '-' :: cs => if cs.isEmpty then none else (readDigits cs 0).map (fun n => - (n : Int))
  | cs => (readDigits cs 0).map (fun n => (n : Int))

/-- The empty table, whose first generated id is 1. -/
def Table.empty : Table := ⟨[], 0, []⟩

/-- A database handle whose `SELECT` returns the given result set, for `Unit` as state. -/
def fixedRows (rows : Rows) : DB Unit where
  Query _ s := (.ok rows, s)
  QueryRowScan _ _ s := (.error "no rows", s)
  Exec _ _ s := (none, s)

/-- Serve requests one after the other, each on the database the one before
left; the responses in order, and the database at the end. -/
def serveAll {σ : Type} (db : DB σ) : List Request → σ → List Response × σ
  | [], s => ([], s)
  | r :: rs, s =>
    match ServeHTTP db r s with
    | (resp, s1) =>
      match serveAll db rs s1 with
      | (resps, s2) => (resp :: resps, s2)

/-- The requests of the scenario: create the user Ana, list, update the name,
delete the user, list. -/
def scenario : List Request :=
  [⟨"POST", ["users"],
      .value (.obj [("name", .str "Ana"), ("department", .str "Eng"), ("email", .str "a@x.com")]),
      by decide⟩,
   ⟨"GET", ["users"], .malformed "EOF", by decide⟩,
   ⟨"PUT", ["users", "1"],
      .value (.obj [("name", .str "Ana B"), ("department", .str "Eng"),
        ("email", .str "a@x.com")]),
      by decide⟩,
   ⟨"DELETE", ["users", "1"], .malformed "EOF", by decide⟩,
   ⟨"GET", ["users"], .malformed "EOF", by decide⟩]

/-! ## Auxiliary facts -/

theorem marshal_error (e : Error) :
    H.marshal [("error", .string e)] = .obj [("error", .str e)] := rfl

theorem marshal_message (m : String) :
    H.marshal [("message", .string m)] = .obj [("message", .str m)] := rfl

theorem marshal_id (n : Int) : H.marshal [("id", .int n)] = .obj [("id", .num n)] := rfl

/-- The loop on rows that all scan: every row is appended, in order. -/
theorem scanRows_ok (vals : List UserRow) (acc : Slice H) :
    scanRows (vals.map .ok) acc =
      ((match vals with
        | [] => acc
        | _ :: _ => some (acc.elems ++ vals.map (fun r =>
            [("id", .int r.id), ("name", .string r.name),
             ("department", .string r.department), ("email", .string r.email)]))), none) := by
  induction vals generalizing acc with
  | nil => rfl
  | cons r rest ih =>
    rw [List.map_cons, scanRows, ih]
    cases rest <;> cases acc <;> simp [Slice.append, Slice.elems]

/-- The loop on rows of which one fails to scan: `nil` and that row's error. -/
theorem scanRows_error (pre : List UserRow) (e : Error) (rest : List (Except Error UserRow))
    (acc : Slice H) :
    scanRows (pre.map .ok ++ .error e :: rest) acc = (none, some e) := by
  induction pre generalizing acc with
  | nil => rfl
  | cons r pre ih => rw [List.map_cons, List.cons_append, scanRows, ih]

/-- Rows split into those that scan before the first failure, or all scan. -/
theorem rows_split (rows : List (Except Error UserRow)) :
    (∃ vals : List UserRow, rows = vals.map .ok) ∨
    (∃ (pre : List UserRow) (e : Error) (rest : List (Except Error UserRow)),
      rows = pre.map .ok ++ .error e :: rest) := by
  induction rows with
  | nil => exact .inl ⟨[], rfl⟩
  | cons r rows ih =>
    cases r with
    | error e => exact .inr ⟨[], e, rows, rfl⟩
    | ok v =>
      rcases ih with ⟨vals, rfl⟩ | ⟨pre, e, rest, rfl⟩
      · exact .inl ⟨v :: vals, rfl⟩
      · exact .inr ⟨v :: pre, e, rest, rfl⟩

/-- The error the loop ends with is the error of a row that fails to scan after rows that scan. -/
theorem scanRows_error_iff (rows : List (Except Error UserRow)) (e : Error) :
    (scanRows rows none).2 = some e ↔
      ∃ (pre : List UserRow) (rest : List (Except Error UserRow)),
        rows = pre.map .ok ++ .error e :: rest := by
  constructor
  · intro h
    rcases rows_split rows with ⟨vals, rfl⟩ | ⟨pre, e1, rest, rfl⟩
    · rw [scanRows_ok] at h; simp at h
    · rw [scanRows_error] at h
      simp only [Option.some.injEq] at h
      subst h
      exact ⟨pre, rest, rfl⟩
  · rintro ⟨pre, rest, rfl⟩
    rw [scanRows_error]

/-- Storing into a field leaves the other fields as they are. -/
theorem UserFields.get_set_ne (u : UserFields) (f g : Field) (v : String) (h : g ≠ f) :
    (u.set g v).get f = u.get f := by
  cases f <;> cases g <;> first | rfl | exact absurd rfl h

/-- A member whose key does not match a field leaves that field as it is. -/
theorem decodeMember_get (acc : UserFields × Option Error) (kv : String × JSON) (f : Field)
    (h : fieldOf kv.1 ≠ some f) : (decodeMember acc kv).1.get f = acc.1.get f := by
  unfold decodeMember
  cases hk : fieldOf kv.1 with
  | none => rfl
  | some g =>
    have hg : g ≠ f := fun e => h (by rw [hk, e])
    cases kv.2 <;> simp only [] <;> first
      | rfl
      | exact UserFields.get_set_ne _ _ _ _ hg
      | (cases acc.2 <;> rfl)

/-- Members none of whose keys match a field leave that field as it is. -/
theorem decode_absent (ms : List (String × JSON)) (acc : UserFields × Option Error) (f : Field)
    (h : ∀ kv ∈ ms, fieldOf kv.1 ≠ some f) :
    (ms.foldl decodeMember acc).1.get f = acc.1.get f := by
  induction ms generalizing acc with
  | nil => rfl
  | cons kv ms ih =>
    rw [List.foldl_cons, ih _ (fun x hx => h x (List.mem_cons_of_mem _ hx)),
      decodeMember_get _ _ _ (h kv (List.mem_cons_self _ _))]

/-- A field for which the body object has no member is bound to the empty string. -/
theorem bind_absent (ms : List (String × JSON)) (user : UserFields) (f : Field)
    (hb : ShouldBindJSON (.value (.obj ms)) = .ok user)
    (h : ∀ kv ∈ ms, fieldOf kv.1 ≠ some f) : user.get f = "" := by
  have hd := decode_absent ms (⟨"", "", ""⟩, none) f h
  simp only [ShouldBindJSON, unmarshal] at hb
  rcases hf : ms.foldl decodeMember (⟨"", "", ""⟩, none) with ⟨u, oe⟩
  rw [hf] at hb hd
  cases oe with
  | some e => simp at hb
  | none =>
    simp only [Except.ok.injEq] at hb
    subst hb
    rw [hd]
    cases f <;> rfl

/-- The list `getUsersFromDB` returns on the table when the `SELECT` succeeds. -/
theorem getUsersFromDB_pg (conv : String → Option Int) (t : Table) :
    (getUsersFromDB (pg conv none) t).1 = scanRows (t.users.map .ok) none := by
  simp only [getUsersFromDB, pg]

/-- A statement the table executes without error met no fault. -/
theorem pg_insert_ok (conv : String → Option Int) (fault : Option Error) (t : Table)
    (a b c : String) (n : Int)
    (h : ((pg conv fault).QueryRowScan
      "INSERT INTO users (name, department, email) VALUES ($1, $2, $3) RETURNING id"
      [a, b, c] t).1 = .ok n) :
    fault = none ∧ n = (t.lastId : Int) + 1 := by
  cases fault with
  | some e => simp [pg] at h
  | none =>
    simp only [pg, Except.ok.injEq] at h
    exact ⟨rfl, h.symm⟩

/-- An `UPDATE` the table executes without error met no fault and an id it could read. -/
theorem pg_update_ok (conv : String → Option Int) (fault : Option Error) (t : Table)
    (a b c id : String)
    (h : ((pg conv fault).Exec
      "UPDATE users SET name = $1, department = $2, email = $3 WHERE id = $4"
      [a, b, c, id] t).1 = none) :
    fault = none ∧ ∃ n : Int, conv id = some n := by
  cases fault with
  | some e => simp [pg] at h
  | none =>
    cases hc : conv id with
    | none => simp [pg, hc] at h
    | some n => exact ⟨rfl, n, rfl⟩

/-- A `DELETE` the table executes without error met no fault and an id it could read. -/
theorem pg_delete_ok (conv : String → Option Int) (fault : Option Error) (t : Table)
    (id : String)
    (h : ((pg conv fault).Exec "DELETE FROM users WHERE id = $1" [id] t).1 = none) :
    fault = none ∧ ∃ n : Int, conv id = some n := by
  cases fault with
  | some e => simp [pg] at h
  | none =>
    cases hc : conv id with
    | none => simp [pg, hc] at h
    | some n => exact ⟨rfl, n, rfl⟩

/-- An `UPDATE` or `DELETE` on an id no row has leaves every row in place. -/
theorem map_unmatched (rows : List UserRow) (n : Int) (g : UserRow → UserRow)
    (h : ∀ r ∈ rows, r.id ≠ n) :
    rows.map (fun r => if r.id = n then g r else r) = rows := by
  induction rows with
  | nil => rfl
  | cons r rs ih =>
    rw [List.map_cons, ih (fun x hx => h x (List.mem_cons_of_mem _ hx)),
      if_neg (h r (List.mem_cons_self _ _))]

/-! ## Listing -/

/-- C1 (as the code has it): when the `SELECT` succeeds with zero rows,
`getUsersFromDB` returns no error and the nil slice, which has length 0, and the
handler of `GET /users` responds with status 200 and the JSON body `null`, the
encoding of a nil slice; the body is neither `[]` nor an error object. (The
result set is any one with zero rows: `rows.Err()` is not read.) -/
theorem getUsers_zero_rows {σ : Type} (db : DB σ) (s s1 : σ) (end_ : Option Error)
    (h : db.Query "SELECT id, name, department, email FROM users" s = (.ok ⟨[], end_⟩, s1)) :
    getUsersFromDB db s = ((none, none), s1) ∧
    (getUsersFromDB db s).1.1.len = 0 ∧
    getUsers db s = (⟨200, .json .null⟩, s1) ∧
    (getUsers db s).1.body ≠ .json (.arr []) ∧
    ∀ e : Error, (getUsers db s).1.body ≠ .json (.obj [("error", .str e)]) := by
  have hg : getUsersFromDB db s = ((none, none), s1) := by
    simp [getUsersFromDB, h, scanRows]
  have hr : getUsers db s = (⟨200, .json .null⟩, s1) := by
    simp [getUsers, hg, respondJSON, marshalUsers, StatusOK]
  refine ⟨hg, ?_, hr, ?_, ?_⟩
  · rw [hg]; rfl
  · rw [hr]; simp
  · intro e; rw [hr]; simp

/-- The empty table answers the `SELECT` with zero rows, and the listing of it
is as `getUsers_zero_rows` says. -/
theorem getUsers_zero_rows_witness :
    (pg readInt none).Query "SELECT id, name, department, email FROM users" Table.empty =
      (.ok ⟨[], none⟩, Table.empty.record "SELECT id, name, department, email FROM users" []) ∧
    getUsers (pg readInt none) Table.empty =
      (⟨200, .json .null⟩,
        Table.empty.record "SELECT id, name, department, email FROM users" []) :=
  ⟨rfl, (getUsers_zero_rows (pg readInt none) Table.empty _ none rfl).2.2.1⟩

/-- C1 as stated fails: on the empty table, with the query succeeding, the body
of `GET /users` is `null`, not the empty array `[]`. -/
theorem getUsers_empty_table_body_not_empty_array :
    (pg readInt none).Query "SELECT id, name, department, email FROM users" Table.empty =
      (.ok ⟨[], none⟩, Table.empty.record "SELECT id, name, department, email FROM users" []) ∧
    (getUsersFromDB (pg readInt none) Table.empty).1.2 = none ∧
    (getUsers (pg readInt none) Table.empty).1.status = 200 ∧
    (getUsers (pg readInt none) Table.empty).1.body = .json .null ∧
    ¬ ((getUsers (pg readInt none) Table.empty).1.body = .json (.arr [])) := by
  refine ⟨rfl, rfl, rfl, rfl, ?_⟩
  intro h
  have h2 : (Body.json .null) = .json (.arr []) := h
  simp at h2

/-- C10: for the rows the `SELECT` returns, if every row scans, `getUsersFromDB`
returns no error and a list of the same length whose i-th record has exactly
the keys id, name, department, email, holding the i-th row's values; if a row
fails to scan, it returns that row's error and the nil list, not the rows read
before it. -/
theorem getUsersFromDB_rows {σ : Type} (db : DB σ) (s s1 : σ)
    (rows : List (Except Error UserRow)) (end_ : Option Error)
    (h : db.Query "SELECT id, name, department, email FROM users" s = (.ok ⟨rows, end_⟩, s1)) :
    (∀ vals : List UserRow, rows = vals.map .ok →
      ∃ users : Slice H, getUsersFromDB db s = ((users, none), s1) ∧
        users.len = vals.length ∧
        ∀ i : Nat, ∀ r : UserRow, vals[i]? = some r →
          ∃ u : H, users.elems[i]? = some u ∧
            u.map Prod.fst = ["id", "name", "department", "email"] ∧
            u.get "id" = some (.int r.id) ∧
            u.get "name" = some (.string r.name) ∧
            u.get "department" = some (.string r.department) ∧
            u.get "email" = some (.string r.email)) ∧
    (∀ (pre : List UserRow) (e : Error) (rest : List (Except Error UserRow)),
      rows = pre.map .ok ++ .error e :: rest →
      getUsersFromDB db s = ((none, some e), s1)) := by
  constructor
  · intro vals hv
    subst hv
    refine ⟨(scanRows (vals.map .ok) none).1, ?_, ?_, ?_⟩
    · simp only [getUsersFromDB, h, scanRows_ok]
    · rw [scanRows_ok]
      cases vals <;> simp [Slice.len, Slice.elems]
    · intro i r hi
      refine ⟨[("id", .int r.id), ("name", .string r.name),
        ("department", .string r.department), ("email", .string r.email)], ?_, rfl, ?_⟩
      · rw [scanRows_ok]
        cases vals with
        | nil => simp at hi
        | cons v vs =>
          simp only [Slice.elems, List.nil_append]
          rw [List.getElem?_map, hi]
          rfl
      · simp +decide [H.get, List.find?]
  · intro pre e rest hr
    subst hr
    simp only [getUsersFromDB, h, scanRows_error]

/-- Two rows that scan are listed in order; a row that does not scan after one
that does gives the error and the nil list. -/
theorem getUsersFromDB_rows_witness :
    getUsersFromDB
        (fixedRows ⟨[.ok ⟨1, "Ana", "Eng", "a@x.com"⟩, .ok ⟨2, "Bo", "Ops", "b@x.com"⟩], none⟩) () =
      ((some [[("id", .int 1), ("name", .string "Ana"), ("department", .string "Eng"),
                ("email", .string "a@x.com")],
              [("id", .int 2), ("name", .string "Bo"), ("department", .string "Ops"),
                ("email", .string "b@x.com")]], none), ()) ∧
    getUsersFromDB
        (fixedRows ⟨[.ok ⟨1, "Ana", "Eng", "a@x.com"⟩, .error "sql: Scan error"], none⟩) () =
      ((none, some "sql: Scan error"), ()) :=
  ⟨rfl,
   (getUsersFromDB_rows
      (fixedRows ⟨[.ok ⟨1, "Ana", "Eng", "a@x.com"⟩, .error "sql: Scan error"], none⟩)
      () () _ none rfl).2 [⟨1, "Ana", "Eng", "a@x.com"⟩] "sql: Scan error" [] rfl⟩

/-! ## Errors -/

/-- C6: when the body fails to bind, `createUser` and `updateUser` respond with
status 400 and the binding error's text under "error", and hand back the
database as they got it, whatever the database is: no statement reaches it. On
the `users` table neither the rows nor the log of statements received change. -/
theorem bind_error_is_bad_request {σ : Type} (db : DB σ) (s : σ) (id : String) (body : ReqBody)
    (err : Error) (h : ShouldBindJSON body = .error err) :
    createUser db body s = (⟨400, .json (.obj [("error", .str err)])⟩, s) ∧
    updateUser db id body s = (⟨400, .json (.obj [("error", .str err)])⟩, s) ∧
    ∀ (conv : String → Option Int) (fault : Option Error) (t : Table),
      (createUser (pg conv fault) body t).2.log = t.log ∧
      (createUser (pg conv fault) body t).2.users = t.users ∧
      (updateUser (pg conv fault) id body t).2.log = t.log ∧
      (updateUser (pg conv fault) id body t).2.users = t.users := by
  have hc : ∀ {τ : Type} (d : DB τ) (x : τ),
      createUser d body x = (⟨400, .json (.obj [("error", .str err)])⟩, x) := by
    intro τ d x
    simp only [createUser, h, respondJSON, marshal_error, StatusBadRequest]
  have hu : ∀ {τ : Type} (d : DB τ) (x : τ),
      updateUser d id body x = (⟨400, .json (.obj [("error", .str err)])⟩, x) := by
    intro τ d x
    simp only [updateUser, h, respondJSON, marshal_error, StatusBadRequest]
  refine ⟨hc db s, hu db s, ?_⟩
  intro conv fault t
  simp only [hc, hu, and_self]

/-- A body that is not JSON is answered with 400 and the decoder's message, and
the table is left with its log empty. -/
theorem bind_error_is_bad_request_witness :
    ShouldBindJSON (.malformed "unexpected EOF") = .error "unexpected EOF" ∧
    createUser (pg readInt none) (.malformed "unexpected EOF") Table.empty =
      (⟨400, .json (.obj [("error", .str "unexpected EOF")])⟩, Table.empty) ∧
    updateUser (pg readInt none) "1" (.malformed "unexpected EOF") Table.empty =
      (⟨400, .json (.obj [("error", .str "unexpected EOF")])⟩, Table.empty) :=
  ⟨rfl,
   (bind_error_is_bad_request (pg readInt none) Table.empty "1" (.malformed "unexpected EOF")
      "unexpected EOF" rfl).1,
   (bind_error_is_bad_request (pg readInt none) Table.empty "1" (.malformed "unexpected EOF")
      "unexpected EOF" rfl).2.1⟩

/-- The errors the four JSON handlers report. Each responds with status 500
and the body "error": the error's text, exactly when the call on `db` returns
that error: `db.Query` or a row's `Scan` for the list, `QueryRow(...).Scan` for
create, `db.Exec` for update and delete. A response with status 500 always has
that form, and a response that is not a 500 has status 200, given for create and
update a body that binds. The error that ends the iteration of the rows,
`rows.Err()`, is not among them: the list handler never sees it. -/
theorem reported_errors {σ : Type} (db : DB σ) (s : σ) (id : String)
    (body : ReqBody) :
    ((∀ e : Error, (getUsers db s).1 = ⟨500, .json (.obj [("error", .str e)])⟩ ↔
        ((db.Query "SELECT id, name, department, email FROM users" s).1 = .error e ∨
          ∃ (rows : Rows) (pre : List UserRow) (rest : List (Except Error UserRow)),
            (db.Query "SELECT id, name, department, email FROM users" s).1 = .ok rows ∧
            rows.scans = pre.map .ok ++ .error e :: rest)) ∧
      ((getUsers db s).1.status = 500 →
        ∃ e : Error, (getUsers db s).1 = ⟨500, .json (.obj [("error", .str e)])⟩) ∧
      ((getUsers db s).1.status ≠ 500 → (getUsers db s).1.status = 200)) ∧
    ((∀ e : Error, (createUser db body s).1 = ⟨500, .json (.obj [("error", .str e)])⟩ ↔
        ∃ user : UserFields, ShouldBindJSON body = .ok user ∧
          (db.QueryRowScan
            "INSERT INTO users (name, department, email) VALUES ($1, $2, $3) RETURNING id"
            [user.Name, user.Department, user.Email] s).1 = .error e) ∧
      ((createUser db body s).1.status = 500 →
        ∃ e : Error, (createUser db body s).1 = ⟨500, .json (.obj [("error", .str e)])⟩) ∧
      (∀ user : UserFields, ShouldBindJSON body = .ok user →
        (createUser db body s).1.status ≠ 500 → (createUser db body s).1.status = 200)) ∧
    ((∀ e : Error, (updateUser db id body s).1 = ⟨500, .json (.obj [("error", .str e)])⟩ ↔
        ∃ user : UserFields, ShouldBindJSON body = .ok user ∧
          (db.Exec "UPDATE users SET name = $1, department = $2, email = $3 WHERE id = $4"
            [user.Name, user.Department, user.Email, id] s).1 = some e) ∧
      ((updateUser db id body s).1.status = 500 →
        ∃ e : Error, (updateUser db id body s).1 = ⟨500, .json (.obj [("error", .str e)])⟩) ∧
      (∀ user : UserFields, ShouldBindJSON body = .ok user →
        (updateUser db id body s).1.status ≠ 500 → (updateUser db id body s).1.status = 200)) ∧
    ((∀ e : Error, (deleteUser db id s).1 = ⟨500, .json (.obj [("error", .str e)])⟩ ↔
        (db.Exec "DELETE FROM users WHERE id = $1" [id] s).1 = some e) ∧
      ((deleteUser db id s).1.status = 500 →
        ∃ e : Error, (deleteUser db id s).1 = ⟨500, .json (.obj [("error", .str e)])⟩) ∧
      ((deleteUser db id s).1.status ≠ 500 → (deleteUser db id s).1.status = 200)) := by
  refine ⟨?_, ?_, ?_, ?_⟩
  · -- GET /users
    rcases hq : db.Query "SELECT id, name, department, email FROM users" s with ⟨res, s1⟩
    cases res with
    | error e0 =>
      have hr : getUsers db s = (⟨500, .json (.obj [("error", .str e0)])⟩, s1) := by
        simp only [getUsers, getUsersFromDB, hq, respondJSON, marshal_error,
          StatusInternalServerError]
      rw [hr]
      refine ⟨fun e => ?_, fun _ => ⟨e0, rfl⟩, fun h => absurd rfl h⟩
      simp [eq_comm]
    | ok rows =>
      rcases hs : scanRows rows.scans none with ⟨users, oe⟩
      have hiff := scanRows_error_iff rows.scans
      rw [hs] at hiff
      cases oe with
      | some e0 =>
        have hr : getUsers db s = (⟨500, .json (.obj [("error", .str e0)])⟩, s1) := by
          simp only [getUsers, getUsersFromDB, hq, hs, respondJSON, marshal_error,
            StatusInternalServerError]
        rw [hr]
        refine ⟨fun e => ?_, fun _ => ⟨e0, rfl⟩, fun h => absurd rfl h⟩
        constructor
        · intro h
          have he : e0 = e := by simpa using h
          subst he
          obtain ⟨pre, rest, hp⟩ := (hiff e0).1 rfl
          exact .inr ⟨rows, pre, rest, rfl, hp⟩
        · rintro (h | ⟨rows1, pre, rest, h1, h2⟩)
          · simp at h
          · have hrows : rows = rows1 := by simpa using h1
            subst hrows
            have he := (hiff e).2 ⟨pre, rest, h2⟩
            simp only [Option.some.injEq] at he
            rw [he]
      | none =>
        have hr : getUsers db s = (⟨200, .json (marshalUsers users)⟩, s1) := by
          simp only [getUsers, getUsersFromDB, hq, hs, respondJSON, StatusOK]
        rw [hr]
        refine ⟨fun e => ?_, fun h => ?_, fun _ => rfl⟩
        · constructor
          · intro h
            simp at h
          · rintro (h | ⟨rows1, pre, rest, h1, h2⟩)
            · simp at h
            · have hrows : rows = rows1 := by simpa using h1
              subst hrows
              have he := (hiff e).2 ⟨pre, rest, h2⟩
              simp at he
        · simp at h
  · -- createUser
    cases hb : ShouldBindJSON body with
    | error e0 =>
      have hr : (createUser db body s).1 = ⟨400, .json (.obj [("error", .str e0)])⟩ := by
        simp only [createUser, hb, respondJSON, marshal_error, StatusBadRequest]
      rw [hr]
      refine ⟨fun e => ?_, fun h => ?_, fun user hu => ?_⟩
      · simp
      · simp at h
      · simp at hu
    | ok user =>
      rcases hq : db.QueryRowScan
        "INSERT INTO users (name, department, email) VALUES ($1, $2, $3) RETURNING id"
        [user.Name, user.Department, user.Email] s with ⟨res, s1⟩
      cases res with
      | error e0 =>
        have hr : (createUser db body s).1 = ⟨500, .json (.obj [("error", .str e0)])⟩ := by
          simp only [createUser, hb, hq, respondJSON, marshal_error, StatusInternalServerError]
        rw [hr]
        refine ⟨fun e => ?_, fun _ => ⟨e0, rfl⟩, fun _ _ h => absurd rfl h⟩
        simp [hq]
      | ok n =>
        have hr : (createUser db body s).1 = ⟨200, .json (.obj [("id", .num n)])⟩ := by
          simp only [createUser, hb, hq, respondJSON, marshal_id, StatusOK]
        rw [hr]
        refine ⟨fun e => ?_, fun h => ?_, fun _ _ _ => rfl⟩
        · simp [hq]
        · simp at h
  · -- updateUser
    cases hb : ShouldBindJSON body with
    | error e0 =>
      have hr : (updateUser db id body s).1 = ⟨400, .json (.obj [("error", .str e0)])⟩ := by
        simp only [updateUser, hb, respondJSON, marshal_error, StatusBadRequest]
      rw [hr]
      refine ⟨fun e => ?_, fun h => ?_, fun user hu => ?_⟩
      · simp
      · simp at h
      · simp at hu
    | ok user =>
      rcases hq : db.Exec
        "UPDATE users SET name = $1, department = $2, email = $3 WHERE id = $4"
        [user.Name, user.Department, user.Email, id] s with ⟨res, s1⟩
      cases res with
      | some e0 =>
        have hr : (updateUser db id body s).1 = ⟨500, .json (.obj [("error", .str e0)])⟩ := by
          simp only [updateUser, hb, hq, respondJSON, marshal_error, StatusInternalServerError]
        rw [hr]
        refine ⟨fun e => ?_, fun _ => ⟨e0, rfl⟩, fun _ _ h => absurd rfl h⟩
        simp [hq]
      | none =>
        have hr : (updateUser db id body s).1 =
            ⟨200, .json (.obj [("message", .str "User updated")])⟩ := by
          simp only [updateUser, hb, hq, respondJSON, marshal_message, StatusOK]
        rw [hr]
        refine ⟨fun e => ?_, fun h => ?_, fun _ _ _ => rfl⟩
        · simp [hq]
        · simp at h
  · -- deleteUser
    rcases hq : db.Exec "DELETE FROM users WHERE id = $1" [id] s with ⟨res, s1⟩
    cases res with
    | some e0 =>
      have hr : (deleteUser db id s).1 = ⟨500, .json (.obj [("error", .str e0)])⟩ := by
        simp only [deleteUser, hq, respondJSON, marshal_error, StatusInternalServerError]
      rw [hr]
      refine ⟨fun e => ?_, fun _ => ⟨e0, rfl⟩, fun h => absurd rfl h⟩
      simp [eq_comm]
    | none =>
      have hr : (deleteUser db id s).1 =
          ⟨200, .json (.obj [("message", .str "User deleted")])⟩ := by
        simp only [deleteUser, hq, respondJSON, marshal_message, StatusOK]
      rw [hr]
      refine ⟨fun e => ?_, fun h => ?_, fun _ => rfl⟩
      · simp
      · simp at h

/-- C7, where the code departs from it: when the `SELECT` delivers one row and
then fails, `rows.Err()` holds the statement's error, yet `getUsersFromDB`
returns the row read and no error, and `GET /users` responds with status 200 and
a one-element array, not with status 500 and the error's text. -/
theorem getUsers_ignores_rows_err :
    (fixedRows ⟨[.ok ⟨1, "Ana", "Eng", "a@x.com"⟩], some "driver: bad connection"⟩).Query
        "SELECT id, name, department, email FROM users" () =
      (.ok ⟨[.ok ⟨1, "Ana", "Eng", "a@x.com"⟩], some "driver: bad connection"⟩, ()) ∧
    (getUsersFromDB
        (fixedRows ⟨[.ok ⟨1, "Ana", "Eng", "a@x.com"⟩], some "driver: bad connection"⟩) ()).1 =
      (some [[("id", .int 1), ("name", .string "Ana"), ("department", .string "Eng"),
          ("email", .string "a@x.com")]], none) ∧
    (getUsers
        (fixedRows ⟨[.ok ⟨1, "Ana", "Eng", "a@x.com"⟩], some "driver: bad connection"⟩) ()).1 =
      ⟨200, .json (.arr [.obj [("department", .str "Eng"), ("email", .str "a@x.com"),
        ("id", .num 1), ("name", .str "Ana")]])⟩ ∧
    (getUsers
        (fixedRows ⟨[.ok ⟨1, "Ana", "Eng", "a@x.com"⟩], some "driver: bad connection"⟩) ()).1.status
      ≠ 500 :=
  ⟨rfl, rfl, rfl, by decide⟩

/-! ## Creating -/

/-- C8: for a create request whose body is a JSON object, either the body binds,
every field the object has no member for is bound to the empty string, and
`createUser` goes on to the `INSERT` with the bound values (the table logs the
statement with them); or binding fails and the response is 400. Which of the
two happens depends on the body alone: it is the same on every database. -/
theorem createUser_missing_field {σ : Type} (db : DB σ) (s : σ) (ms : List (String × JSON)) :
    ((∃ user : UserFields, ShouldBindJSON (.value (.obj ms)) = .ok user ∧
        (∀ f : Field, (∀ kv ∈ ms, fieldOf kv.1 ≠ some f) → user.get f = "") ∧
        (createUser db (.value (.obj ms)) s).2 =
          (db.QueryRowScan
            "INSERT INTO users (name, department, email) VALUES ($1, $2, $3) RETURNING id"
            [user.Name, user.Department, user.Email] s).2 ∧
        (createUser db (.value (.obj ms)) s).1.status ≠ 400 ∧
        ∀ (conv : String → Option Int) (fault : Option Error) (t : Table),
          (createUser (pg conv fault) (.value (.obj ms)) t).2.log = t.log ++
            [("INSERT INTO users (name, department, email) VALUES ($1, $2, $3) RETURNING id",
              [user.Name, user.Department, user.Email])]) ∨
      (∃ err : Error, ShouldBindJSON (.value (.obj ms)) = .error err ∧
        createUser db (.value (.obj ms)) s = (⟨400, .json (.obj [("error", .str err)])⟩, s))) ∧
    (∀ {τ : Type} (db2 : DB τ) (s2 : τ),
      (createUser db (.value (.obj ms)) s).1.status = 400 ↔
        (createUser db2 (.value (.obj ms)) s2).1.status = 400) := by
  have hstat : ∀ {τ : Type} (d : DB τ) (x : τ),
      (createUser d (.value (.obj ms)) x).1.status = 400 ↔
        ∃ err, ShouldBindJSON (.value (.obj ms)) = .error err := by
    intro τ d x
    cases hb : ShouldBindJSON (.value (.obj ms)) with
    | error e => simp [createUser, hb, respondJSON, StatusBadRequest]
    | ok user =>
      rcases hq : d.QueryRowScan
        "INSERT INTO users (name, department, email) VALUES ($1, $2, $3) RETURNING id"
        [user.Name, user.Department, user.Email] x with ⟨res, x1⟩
      cases res <;>
        simp [createUser, hb, hq, respondJSON, StatusOK, StatusInternalServerError]
  refine ⟨?_, fun db2 s2 => (hstat db s).trans (hstat db2 s2).symm⟩
  cases hb : ShouldBindJSON (.value (.obj ms)) with
  | error e =>
    refine .inr ⟨e, rfl, ?_⟩
    simp only [createUser, hb, respondJSON, marshal_error, StatusBadRequest]
  | ok user =>
    refine .inl ⟨user, rfl, fun f hf => bind_absent ms user f hb hf, ?_, ?_, ?_⟩
    · rcases hq : db.QueryRowScan
        "INSERT INTO users (name, department, email) VALUES ($1, $2, $3) RETURNING id"
        [user.Name, user.Department, user.Email] s with ⟨res, s1⟩
      cases res <;> simp only [createUser, hb, hq]
    · intro h4
      rcases (hstat db s).1 h4 with ⟨err, herr⟩
      rw [hb] at herr
      simp at herr
    · intro conv fault t
      cases fault <;> simp [createUser, hb, pg, Table.record]

/-- C2: on every table, for every body that binds and for which the `INSERT`
succeeds, returning the id n, `createUser` responds with status 200 and
"id": n, n is positive, and the list `getUsersFromDB` returns on the resulting
table has a record whose id is n and whose name, department and email are the
values bound from the body. -/
theorem createUser_then_list (conv : String → Option Int) (fault : Option Error) (t : Table)
    (body : ReqBody) (user : UserFields) (n : Int)
    (h : ShouldBindJSON body = .ok user)
    (hins : ((pg conv fault).QueryRowScan
      "INSERT INTO users (name, department, email) VALUES ($1, $2, $3) RETURNING id"
      [user.Name, user.Department, user.Email] t).1 = .ok n) :
    0 < n ∧
    (createUser (pg conv fault) body t).1 = ⟨200, .json (.obj [("id", .num n)])⟩ ∧
    ∃ users : List H,
      (getUsersFromDB (pg conv none) (createUser (pg conv fault) body t).2).1 =
        (some users, none) ∧
      ∃ u ∈ users, u.get "id" = some (.int n) ∧
        u.get "name" = some (.string user.Name) ∧
        u.get "department" = some (.string user.Department) ∧
        u.get "email" = some (.string user.Email) := by
  obtain ⟨rfl, rfl⟩ := pg_insert_ok conv fault t _ _ _ n hins
  refine ⟨by omega, ?_, ?_⟩
  · simp only [createUser, h, pg, respondJSON, marshal_id, StatusOK]
  · have hs : (createUser (pg conv none) body t).2.users =
        t.users ++ [⟨(t.lastId : Int) + 1, user.Name, user.Department, user.Email⟩] := by
      simp only [createUser, h, pg]
    rw [getUsersFromDB_pg, hs, scanRows_ok]
    refine ⟨(t.users ++
      [(⟨(t.lastId : Int) + 1, user.Name, user.Department, user.Email⟩ : UserRow)]).map
      (fun r : UserRow => [("id", .int r.id), ("name", .string r.name),
        ("department", .string r.department), ("email", .string r.email)]), ?_,
      [("id", .int ((t.lastId : Int) + 1)), ("name", .string user.Name),
        ("department", .string user.Department), ("email", .string user.Email)], ?_, ?_⟩
    · cases ht : t.users with
      | nil => rfl
      | cons r rs => rfl
    · rw [List.map_append]
      exact List.mem_append_right _ (List.mem_singleton.2 rfl)
    · simp +decide [H.get, List.find?]

/-- Creating Ana on a table that holds Bo: the id is 2 and the list has Ana's record. -/
theorem createUser_then_list_witness :
    ShouldBindJSON (.value (.obj [("name", .str "Ana"), ("department", .str "Eng"),
      ("email", .str "a@x.com")])) = .ok ⟨"Ana", "Eng", "a@x.com"⟩ ∧
    (createUser (pg readInt none) (.value (.obj [("name", .str "Ana"), ("department", .str "Eng"),
      ("email", .str "a@x.com")])) ⟨[⟨1, "Bo", "Ops", "b@x.com"⟩], 1, []⟩).1 =
        ⟨200, .json (.obj [("id", .num 2)])⟩ :=
  ⟨rfl,
   (createUser_then_list readInt none ⟨[⟨1, "Bo", "Ops", "b@x.com"⟩], 1, []⟩
      (.value (.obj [("name", .str "Ana"), ("department", .str "Eng"), ("email", .str "a@x.com")]))
      ⟨"Ana", "Eng", "a@x.com"⟩ 2 rfl rfl).2.1⟩

/-! ## Updating and deleting -/


/-- C3: on every table, for every id the database reads as the id n of an existing
row and every body that binds, an `updateUser` whose `UPDATE` succeeds responds
with status 200 and "message": "User updated" and leaves the table with the same
number of rows; a row with id n keeps its id and has name, department and email
replaced by the values bound from the body, where a field the body object has
no member for is bound to the empty string; every row with another id is
unchanged; and a row with id n is in the table afterwards. -/
theorem updateUser_overwrites (conv : String → Option Int) (fault : Option Error) (t : Table)
    (id : String) (n : Int) (body : ReqBody) (user : UserFields)
    (hb : ShouldBindJSON body = .ok user)
    (hid : conv id = some n)
    (hrow : ∃ r ∈ t.users, r.id = n)
    (hex : ((pg conv fault).Exec
      "UPDATE users SET name = $1, department = $2, email = $3 WHERE id = $4"
      [user.Name, user.Department, user.Email, id] t).1 = none) :
    (updateUser (pg conv fault) id body t).1 =
      ⟨200, .json (.obj [("message", .str "User updated")])⟩ ∧
    (updateUser (pg conv fault) id body t).2.users.length = t.users.length ∧
    (∀ (i : Nat) (r : UserRow), t.users[i]? = some r →
      (r.id = n → (updateUser (pg conv fault) id body t).2.users[i]? =
        some ⟨n, user.Name, user.Department, user.Email⟩) ∧
      (r.id ≠ n → (updateUser (pg conv fault) id body t).2.users[i]? = some r)) ∧
    (∀ (ms : List (String × JSON)) (f : Field), body = .value (.obj ms) →
      (∀ kv ∈ ms, fieldOf kv.1 ≠ some f) → user.get f = "") ∧
    (⟨n, user.Name, user.Department, user.Email⟩ : UserRow) ∈
      (updateUser (pg conv fault) id body t).2.users := by
  obtain ⟨rfl, -⟩ := pg_update_ok conv fault t _ _ _ id hex
  have hs : (updateUser (pg conv none) id body t).2.users =
      t.users.map (fun r =>
        if r.id = n then ⟨r.id, user.Name, user.Department, user.Email⟩ else r) := by
    simp only [updateUser, hb, pg, hid]
  refine ⟨?_, ?_, ?_, ?_, ?_⟩
  · simp only [updateUser, hb, pg, hid, respondJSON, marshal_message, StatusOK]
  · rw [hs, List.length_map]
  · intro i r hi
    rw [hs, List.getElem?_map, hi]
    constructor
    · intro hr
      simp only [Option.map_some', hr, if_true]
    · intro hr
      simp only [Option.map_some', hr, if_false]
  · intro ms f hbody hf
    subst hbody
    exact bind_absent ms user f hb hf
  · obtain ⟨r, hr, hrn⟩ := hrow
    rw [hs, List.mem_map]
    refine ⟨r, hr, ?_⟩
    simp only [hrn, if_true]

/-- Updating row 1 of a two-row table with a body that has no "email" member:
row 1 gets the new name and department and an empty email, row 2 stays. -/
theorem updateUser_overwrites_witness :
    ShouldBindJSON (.value (.obj [("name", .str "Ana B"), ("department", .str "Eng")])) =
      .ok ⟨"Ana B", "Eng", ""⟩ ∧
    readInt "1" = some 1 ∧
    (updateUser (pg readInt none) "1"
      (.value (.obj [("name", .str "Ana B"), ("department", .str "Eng")]))
      ⟨[⟨1, "Ana", "Eng", "a@x.com"⟩, ⟨2, "Bo", "Ops", "b@x.com"⟩], 2, []⟩).2.users[0]? =
        some ⟨1, "Ana B", "Eng", ""⟩ ∧
    (updateUser (pg readInt none) "1"
      (.value (.obj [("name", .str "Ana B"), ("department", .str "Eng")]))
      ⟨[⟨1, "Ana", "Eng", "a@x.com"⟩, ⟨2, "Bo", "Ops", "b@x.com"⟩], 2, []⟩).2.users[1]? =
        some ⟨2, "Bo", "Ops", "b@x.com"⟩ :=
  ⟨rfl, rfl,
   ((updateUser_overwrites readInt none
      ⟨[⟨1, "Ana", "Eng", "a@x.com"⟩, ⟨2, "Bo", "Ops", "b@x.com"⟩], 2, []⟩ "1" 1
      (.value (.obj [("name", .str "Ana B"), ("department", .str "Eng")]))
      ⟨"Ana B", "Eng", ""⟩ rfl rfl ⟨⟨1, "Ana", "Eng", "a@x.com"⟩, by simp, rfl⟩ rfl).2.2.1
      0 ⟨1, "Ana", "Eng", "a@x.com"⟩ rfl).1 rfl,
   ((updateUser_overwrites readInt none
      ⟨[⟨1, "Ana", "Eng", "a@x.com"⟩, ⟨2, "Bo", "Ops", "b@x.com"⟩], 2, []⟩ "1" 1
      (.value (.obj [("name", .str "Ana B"), ("department", .str "Eng")]))
      ⟨"Ana B", "Eng", ""⟩ rfl rfl ⟨⟨1, "Ana", "Eng", "a@x.com"⟩, by simp, rfl⟩ rfl).2.2.1
      1 ⟨2, "Bo", "Ops", "b@x.com"⟩ rfl).2 (by decide)⟩

/-- C4 (as the code has it): on every table, for every id that matches no row
and every body that binds, `updateUser` responds with status 200 and
"message": "User updated" when the `UPDATE` statement executes without error; and
whether it does or not, the rows of the table are as before, and the list
operation returns the same before and after. -/
theorem updateUser_unmatched (conv : String → Option Int) (fault : Option Error) (t : Table)
    (id : String) (body : ReqBody) (user : UserFields)
    (hb : ShouldBindJSON body = .ok user)
    (hno : ∀ r ∈ t.users, conv id ≠ some r.id) :
    (((pg conv fault).Exec
        "UPDATE users SET name = $1, department = $2, email = $3 WHERE id = $4"
        [user.Name, user.Department, user.Email, id] t).1 = none →
      (updateUser (pg conv fault) id body t).1 =
        ⟨200, .json (.obj [("message", .str "User updated")])⟩) ∧
    (updateUser (pg conv fault) id body t).2.users = t.users ∧
    ∀ f : Option Error,
      (getUsersFromDB (pg conv f) (updateUser (pg conv fault) id body t).2).1 =
        (getUsersFromDB (pg conv f) t).1 := by
  have hs : (updateUser (pg conv fault) id body t).2.users = t.users := by
    cases fault with
    | some e => simp only [updateUser, hb, pg, Table.record]
    | none =>
      cases hid : conv id with
      | none => simp only [updateUser, hb, pg, hid, Table.record]
      | some n =>
        have hn : ∀ r ∈ t.users, r.id ≠ n := fun r hr e => hno r hr (by rw [hid, e])
        simp only [updateUser, hb, pg, hid]
        exact map_unmatched t.users n _ hn
  refine ⟨?_, hs, ?_⟩
  · intro hex
    obtain ⟨rfl, n, hid⟩ := pg_update_ok conv fault t _ _ _ id hex
    simp only [updateUser, hb, pg, hid, respondJSON, marshal_message, StatusOK]
  · intro f
    cases f with
    | some e => simp only [getUsersFromDB, pg]
    | none => rw [getUsersFromDB_pg, getUsersFromDB_pg, hs]

/-- Updating id 7 on a table whose only row has id 1: success message, rows as before. -/
theorem updateUser_unmatched_witness :
    (updateUser (pg readInt none) "7"
      (.value (.obj [("name", .str "Zed"), ("department", .str "Ops"), ("email", .str "z@x.com")]))
      ⟨[⟨1, "Ana", "Eng", "a@x.com"⟩], 1, []⟩).1 =
        ⟨200, .json (.obj [("message", .str "User updated")])⟩ ∧
    (updateUser (pg readInt none) "7"
      (.value (.obj [("name", .str "Zed"), ("department", .str "Ops"), ("email", .str "z@x.com")]))
      ⟨[⟨1, "Ana", "Eng", "a@x.com"⟩], 1, []⟩).2.users = [⟨1, "Ana", "Eng", "a@x.com"⟩] :=
  ⟨(updateUser_unmatched readInt none ⟨[⟨1, "Ana", "Eng", "a@x.com"⟩], 1, []⟩ "7"
      (.value (.obj [("name", .str "Zed"), ("department", .str "Ops"), ("email", .str "z@x.com")]))
      ⟨"Zed", "Ops", "z@x.com"⟩ rfl (by decide)).1 rfl,
   (updateUser_unmatched readInt none ⟨[⟨1, "Ana", "Eng", "a@x.com"⟩], 1, []⟩ "7"
      (.value (.obj [("name", .str "Zed"), ("department", .str "Ops"), ("email", .str "z@x.com")]))
      ⟨"Zed", "Ops", "z@x.com"⟩ rfl (by decide)).2.1⟩

/-- C4 as stated fails: with a body that binds and an id that matches no row,
`updateUser` responds with status 500, not 200, when the statement returns an
error: for `PUT /users/abc`, whose id the database does not read as an integer,
and for `PUT /users/7` when the connection fails. -/
theorem updateUser_unmatched_not_always_ok :
    (∀ r ∈ (⟨[⟨1, "Ana", "Eng", "a@x.com"⟩], 1, []⟩ : Table).users, readInt "abc" ≠ some r.id) ∧
    (∀ r ∈ (⟨[⟨1, "Ana", "Eng", "a@x.com"⟩], 1, []⟩ : Table).users, readInt "7" ≠ some r.id) ∧
    ShouldBindJSON (.value (.obj [("name", .str "Zed"), ("department", .str "Ops"),
      ("email", .str "z@x.com")])) = .ok ⟨"Zed", "Ops", "z@x.com"⟩ ∧
    (updateUser (pg readInt none) "abc"
      (.value (.obj [("name", .str "Zed"), ("department", .str "Ops"), ("email", .str "z@x.com")]))
      ⟨[⟨1, "Ana", "Eng", "a@x.com"⟩], 1, []⟩).1 =
        ⟨500, .json (.obj [("error", .str "pq: invalid input syntax for type integer: abc")])⟩ ∧
    (updateUser (pg readInt (some "driver: bad connection")) "7"
      (.value (.obj [("name", .str "Zed"), ("department", .str "Ops"), ("email", .str "z@x.com")]))
      ⟨[⟨1, "Ana", "Eng", "a@x.com"⟩], 1, []⟩).1 =
        ⟨500, .json (.obj [("error", .str "driver: bad connection")])⟩ ∧
    (updateUser (pg readInt none) "abc"
      (.value (.obj [("name", .str "Zed"), ("department", .str "Ops"), ("email", .str "z@x.com")]))
      ⟨[⟨1, "Ana", "Eng", "a@x.com"⟩], 1, []⟩).1.status ≠ 200 :=
  ⟨by decide, by decide, rfl, rfl, rfl, by decide⟩

/-- C5 (as the code has it): on every table, for every id that matches no row,
`deleteUser` responds with status 200 and "message": "User deleted" when the
`DELETE` statement executes without error; and whether it does or not, the table
has the same rows, so the same number of rows, as before. -/
theorem deleteUser_unmatched (conv : String → Option Int) (fault : Option Error) (t : Table)
    (id : String)
    (hno : ∀ r ∈ t.users, conv id ≠ some r.id) :
    (((pg conv fault).Exec "DELETE FROM users WHERE id = $1" [id] t).1 = none →
      (deleteUser (pg conv fault) id t).1 =
        ⟨200, .json (.obj [("message", .str "User deleted")])⟩) ∧
    (deleteUser (pg conv fault) id t).2.users.length = t.users.length ∧
    (deleteUser (pg conv fault) id t).2.users = t.users := by
  have hs : (deleteUser (pg conv fault) id t).2.users = t.users := by
    cases fault with
    | some e => simp only [deleteUser, pg, Table.record]
    | none =>
      cases hid : conv id with
      | none => simp only [deleteUser, pg, hid, Table.record]
      | some n =>
        have hn : ∀ r ∈ t.users, r.id ≠ n := fun r hr e => hno r hr (by rw [hid, e])
        simp only [deleteUser, pg, hid]
        exact List.filter_eq_self.2 (fun r hr => by simpa using hn r hr)
  refine ⟨?_, by rw [hs], hs⟩
  intro hex
  obtain ⟨rfl, n, hid⟩ := pg_delete_ok conv fault t id hex
  simp only [deleteUser, pg, hid, respondJSON, marshal_message, StatusOK]

/-- Deleting id 7 on a table whose only row has id 1: success message, one row still. -/
theorem deleteUser_unmatched_witness :
    (deleteUser (pg readInt none) "7" ⟨[⟨1, "Ana", "Eng", "a@x.com"⟩], 1, []⟩).1 =
      ⟨200, .json (.obj [("message", .str "User deleted")])⟩ ∧
    (deleteUser (pg readInt none) "7" ⟨[⟨1, "Ana", "Eng", "a@x.com"⟩], 1, []⟩).2.users.length = 1 :=
  ⟨(deleteUser_unmatched readInt none ⟨[⟨1, "Ana", "Eng", "a@x.com"⟩], 1, []⟩ "7"
      (by decide)).1 rfl,
   (deleteUser_unmatched readInt none ⟨[⟨1, "Ana", "Eng", "a@x.com"⟩], 1, []⟩ "7"
      (by decide)).2.1⟩

/-- C5 as stated fails: with an id that matches no row, `deleteUser` responds
with status 500, not 200, when the statement returns an error: for
`DELETE /users/abc`, whose id the database does not read as an integer, and for
`DELETE /users/7` when the connection fails. -/
theorem deleteUser_unmatched_not_always_ok :
    (∀ r ∈ (⟨[⟨1, "Ana", "Eng", "a@x.com"⟩], 1, []⟩ : Table).users, readInt "abc" ≠ some r.id) ∧
    (∀ r ∈ (⟨[⟨1, "Ana", "Eng", "a@x.com"⟩], 1, []⟩ : Table).users, readInt "7" ≠ some r.id) ∧
    (deleteUser (pg readInt none) "abc" ⟨[⟨1, "Ana", "Eng", "a@x.com"⟩], 1, []⟩).1 =
      ⟨500, .json (.obj [("error", .str "pq: invalid input syntax for type integer: abc")])⟩ ∧
    (deleteUser (pg readInt (some "driver: bad connection")) "7"
      ⟨[⟨1, "Ana", "Eng", "a@x.com"⟩], 1, []⟩).1 =
        ⟨500, .json (.obj [("error", .str "driver: bad connection")])⟩ ∧
    (deleteUser (pg readInt none) "abc" ⟨[⟨1, "Ana", "Eng", "a@x.com"⟩], 1, []⟩).1.status ≠ 200 :=
  ⟨by decide, by decide, rfl, rfl, by decide⟩

/-! ## The scenario -/


/-- C9 (as the code has it): from the empty table whose first generated id is 1,
the scenario runs with status 200 throughout and the bodies
"id": 1; the one-element array with the record id 1, name Ana, department Eng,
email a@x.com (its members in key order, as the encoder writes a map);
"message": "User updated"; "message": "User deleted"; and, for the last
`GET /users`, `null`. The table is empty at the end. -/
theorem scenario_responses :
    (serveAll (pg readInt none) scenario Table.empty).1 =
      [⟨200, .json (.obj [("id", .num 1)])⟩,
       ⟨200, .json (.arr [.obj [("department", .str "Eng"), ("email", .str "a@x.com"),
          ("id", .num 1), ("name", .str "Ana")]])⟩,
       ⟨200, .json (.obj [("message", .str "User updated")])⟩,
       ⟨200, .json (.obj [("message", .str "User deleted")])⟩,
       ⟨200, .json .null⟩] ∧
    JSON.obj [("department", .str "Eng"), ("email", .str "a@x.com"), ("id", .num 1),
        ("name", .str "Ana")] =
      H.marshal [("id", .int 1), ("name", .string "Ana"), ("department", .string "Eng"),
        ("email", .string "a@x.com")] ∧
    (serveAll (pg readInt none) scenario Table.empty).2.users = [] := ⟨rfl, rfl, rfl⟩

/-- C9 as stated fails: the last `GET /users` of the scenario returns `null`, so
the bodies are not a list that ends with the empty array `[]`, whatever the four
bodies before it. -/
theorem scenario_last_list_not_empty_array :
    ((serveAll (pg readInt none) scenario Table.empty).1.map (fun r => r.body))[4]? =
      some (.json .null) ∧
    ¬ ∃ b1 b2 b3 b4 : Body,
      (serveAll (pg readInt none) scenario Table.empty).1.map (fun r => r.body) =
        [b1, b2, b3, b4, .json (.arr [])] := by
  refine ⟨rfl, ?_⟩
  rintro ⟨b1, b2, b3, b4, h⟩
  have h5 := congrArg (fun l => l[4]?) h
  have h6 : some (Body.json .null) = some (Body.json (.arr [])) := h5
  simp at h6

end Handler
